import Mathlib

set_option linter.unusedVariables false
set_option maxRecDepth 8000

/-!
Verification of the RAG demo application: a console driver (rag_app.py) and a
reactive UI driver (streamlit_app.py) orchestrating page loading, chunking,
vector-store construction and question answering.

The embedding models the repository code directly.  External library
calls (web loader, text splitter internals, embeddings, LLM) are opaque: their
outcomes are passed in as explicit `Except` values, mirroring "the call either
returns a value or raises".  Python session variables become structure fields;
each contiguous block of driver code becomes a Lean function over that state.
-/

/-- A page-content record returned by the web loader (a langchain Document). -/
structure Doc where
  page_content : String
deriving DecidableEq, Repr

/-- The on-disk Chroma database: an association of collection names to the
chunk lists stored in them. -/
abbrev ChromaDB := List (String × List String)

/-- An opaque vector-store handle, as produced by `create_vectorstore`:
it remembers the collection it is bound to, the chunks embedded into it and
the embedding model. -/
structure Store where
  collection : String
  chunks : List String
  model : String
deriving DecidableEq, Repr

/-- An opaque RAG-chain handle, as produced by `setup_rag_chain`: a retriever
over a store with a fixed retrieval count, composed with an LLM. -/
structure Chain where
  store : Store
  k : Nat
  model : String
deriving DecidableEq, Repr

/-- The whitespace characters stripped by the Python method `str.strip` (ASCII
subset): space, tab, newline, carriage return, vertical tab, form feed. -/
def pyWhitespace (c : Char) : Bool :=
  c = ' ' || c = '\t' || c = '\n' || c = '\r' || c = Char.ofNat 11 || c = Char.ofNat 12

/-- Python `str.strip()`: remove leading and trailing whitespace. -/
def pyStrip (s : String) : String :=
  ⟨((s.data.dropWhile pyWhitespace).reverse.dropWhile pyWhitespace).reverse⟩

/-- Python `str.lower()` on ASCII letters. -/
def pyLowerChar (c : Char) : Char :=
  if 'A' ≤ c ∧ c ≤ 'Z' then Char.ofNat (c.toNat + 32) else c

/-- Python `str.lower()`. -/
def pyLower (s : String) : String :=
  ⟨s.data.map pyLowerChar⟩

/-- The outcome of the external `WebBaseLoader(url).load()` call: either a
document list or a raised exception carrying a message. -/
abbrev LoadOutcome := Except String (List Doc)

/-- The documents an outcome delivers: what the try block binds on success,
nothing on an exception. -/
def loadDocs (o : LoadOutcome) : List Doc :=
  match o with
  | .ok docs => docs
  | .error _ => []

/-- `load_webpage` (rag_app.py lines 21-46): runs the loader inside
try/except; on success prints the page content and returns the documents, on
any exception prints "Error loading webpage: {e}" and returns the empty list.
Returns the document list together with the printed messages. -/
def load_webpage (url : String) (o : LoadOutcome) : List Doc × List String :=
  match o with
  | .ok docs => (docs, "Webpage content:" :: docs.map (fun d => d.page_content))
  | .error e => ([], ["Error loading webpage: " ++ e])

/-- Modelled from the spec: the chunker delegates to the external
`RecursiveCharacterTextSplitter` (chunk size 1000, overlap 200, length
measured in characters), whose code is not part of this repository.  Per the
spec it produces fixed-size overlapping character windows: each chunk is 1000
characters, consecutive chunks overlap by 200 characters (stride 800), and a
text of at most 1000 characters is a single chunk.  The fuel argument only
bounds the recursion depth; the text length is always enough fuel, since
each step consumes 800 characters. -/
def splitCharsGo (fuel : Nat) (l : List Char) : List String :=
  match fuel with
  | 0 => [⟨l⟩]
  | fuel + 1 =>
    if l.length ≤ 1000 then [⟨l⟩]
    else ⟨l.take 1000⟩ :: splitCharsGo fuel (l.drop 800)

/-- Modelled from the spec: split one text into overlapping 1000-character
windows with stride 800. -/
def splitChars (l : List Char) : List String :=
  splitCharsGo l.length l

/-- `split_documents` (rag_app.py lines 48-73): split each document into
chunks with the fixed 1000/200 configuration, preserving order. -/
def split_documents : List Doc → List String
  | [] => []
  | d :: rest => splitChars d.page_content.data ++ split_documents rest

/-- The per-model collection name used by `create_vectorstore`
(rag_app.py line 88). -/
def collectionName (model : String) : String :=
  "webpage_collection_" ++ model

/-- `client.delete_collection(name)` wrapped in try/except pass: remove the
named collection if present, do nothing otherwise. -/
def deleteCollection (name : String) (db : ChromaDB) : ChromaDB :=
  db.filter (fun kv => kv.1 ≠ name)

/-- `create_vectorstore` (rag_app.py lines 75-118): name the collection after
the model, delete a same-named existing collection, then create the
collection from the chunks.  Returns the store handle and the updated
database. -/
def create_vectorstore (splits : List String) (model : String) (db : ChromaDB) :
    Store × ChromaDB :=
  let name := collectionName model
  let db1 := deleteCollection name db
  (⟨name, splits, model⟩, (name, splits) :: db1)

/-- `setup_rag_chain` (rag_app.py lines 120-148): a retriever over the store
with k = 3, composed with the model. -/
def setup_rag_chain (vs : Store) (model : String) : Chain :=
  ⟨vs, 3, model⟩

/-- The outcome of the external `rag_chain.invoke(question)` call. -/
abbrev AnswerOutcome := Except String String

/-- The session variables of the console driver `main` (rag_app.py lines
171-207): the store and chain handles, the on-disk database and the model
fixed by the command line. -/
structure ConsoleState where
  vectorstore : Option Store
  rag_chain : Option Chain
  db : ChromaDB
  model : String
deriving DecidableEq, Repr

/-- The default model of the console driver (`--model` default, line 172). -/
def defaultModel : String := "llama3"

/-- The initial console session: no handles, empty database. -/
def consoleInit (model : String) : ConsoleState :=
  ⟨none, none, [], model⟩

/-- External outcomes available to one console loop iteration. -/
structure ConsoleEnv where
  loadOutcome : LoadOutcome
  answerOutcome : AnswerOutcome
deriving Repr

/-- What one console loop iteration produced: the next state, whether the
loop breaks, the printed messages, how many store and chain handles were
created, and the URL passed to `load_webpage` when it was called. -/
structure ConsoleResult where
  state : ConsoleState
  exit : Bool
  messages : List String
  storesCreated : Nat
  chainsCreated : Nat
  loadedUrl : Option String
deriving DecidableEq, Repr

/-- One iteration of the console loop (rag_app.py lines 179-207).
When no store handle is held (`if not vectorstore:`): read a URL, strip it;
"quit" (case-insensitive) breaks; otherwise the stripped URL goes to
`load_webpage`, and a non-empty result builds the store and chain.
When a store handle is held: read a question, strip it; "quit" breaks,
"new" drops only the store handle; otherwise the chain is invoked inside
try/except. -/
def consoleStep (s : ConsoleState) (rawInput : String) (env : ConsoleEnv) :
    ConsoleResult :=
  if s.vectorstore.isNone then
    let url := pyStrip rawInput
    if pyLower url = "quit" then
      ⟨s, true, ["Exiting application."], 0, 0, none⟩
    else
      let (documents, msgs) := load_webpage url env.loadOutcome
      if documents ≠ [] then
        let splits := split_documents documents
        let (vs, db1) := create_vectorstore splits s.model s.db
        let chain := setup_rag_chain vs s.model
        ⟨{ s with vectorstore := some vs, rag_chain := some chain, db := db1 },
         false,
         msgs ++ ["Split documents into " ++ toString splits.length ++ " chunks",
                  "Created vector store with Ollama embeddings",
                  "Ready for questions!"],
         1, 1, some url⟩
      else
        ⟨s, false, msgs, 0, 0, some url⟩
  else
    let question := pyStrip rawInput
    if pyLower question = "quit" then
      ⟨s, true, ["Exiting application."], 0, 0, none⟩
    else if pyLower question = "new" then
      ⟨{ s with vectorstore := none }, false, [], 0, 0, none⟩
    else
      match env.answerOutcome with
      | .ok ans => ⟨s, false, ["Answer: " ++ ans], 0, 0, none⟩
      | .error e => ⟨s, false, ["Error generating answer: " ++ e], 0, 0, none⟩

/-- Run the console loop over a list of inputs with their external outcomes,
stopping when an iteration breaks. -/
def consoleRun (s : ConsoleState) : List (String × ConsoleEnv) → ConsoleState
  | [] => s
  | (inp, env) :: rest =>
    let r := consoleStep s inp env
    if r.exit then r.state else consoleRun r.state rest

/-- The session state variables of the UI driver (streamlit_app.py lines
39-46). -/
structure UiState where
  vectorstore : Option Store
  rag_chain : Option Chain
  current_url : String
  current_model : String
deriving DecidableEq, Repr

/-- The initial UI session (streamlit_app.py lines 39-46). -/
def uiInit : UiState :=
  ⟨none, none, "", "llama3"⟩

/-- The model-change block (streamlit_app.py lines 71-93): when the selected
model differs from the session model, delete the old collection from the
database, clear the store handle, the chain handle and the current URL, and
record the new model; the script then reruns.  Otherwise nothing happens. -/
def uiModelChange (s : UiState) (db : ChromaDB) (model : String) :
    UiState × ChromaDB :=
  if model ≠ s.current_model then
    (⟨none, none, "", model⟩, deleteCollection (collectionName s.current_model) db)
  else
    (s, db)

/-- Result of the UI load block. -/
structure UiLoadResult where
  state : UiState
  db : ChromaDB
  messages : List String
  storesCreated : Nat
  chainsCreated : Nat
deriving DecidableEq, Repr

/-- The load block (streamlit_app.py lines 132-146): when a non-empty URL is
present that differs from the current URL (or the model differs) and the Load
Webpage button was clicked, load the page; a non-empty result builds the
store and chain and records the URL and model, an empty result shows
"Failed to load webpage". -/
def uiLoad (s : UiState) (db : ChromaDB) (url : String) (model : String)
    (loadClicked : Bool) (o : LoadOutcome) : UiLoadResult :=
  if url ≠ "" ∧ (url ≠ s.current_url ∨ model ≠ s.current_model) ∧ loadClicked then
    let (documents, msgs) := load_webpage url o
    if documents ≠ [] then
      let splits := split_documents documents
      let (vs, db1) := create_vectorstore splits model db
      let chain := setup_rag_chain vs model
      ⟨⟨some vs, some chain, url, model⟩, db1,
       msgs ++ ["Webpage loaded successfully!"], 1, 1⟩
    else
      ⟨s, db, msgs ++ ["Failed to load webpage"], 0, 0⟩
  else
    ⟨s, db, [], 0, 0⟩

/-- The question block (streamlit_app.py lines 149-162): shown only while a
store handle is held; when a question is present and Get Answer was clicked,
the chain is invoked inside try/except; an exception is shown with
`st.error`.  The session state is never written. -/
def uiAnswer (s : UiState) (question : String) (getClicked : Bool)
    (o : AnswerOutcome) : UiState × List String :=
  if s.vectorstore.isSome ∧ question ≠ "" ∧ getClicked then
    match o with
    | .ok ans => (s, ["Answer:", ans])
    | .error e => (s, ["Error generating answer: " ++ e])
  else
    (s, [])

/-- The clear block (streamlit_app.py lines 164-169): shown only while a
store handle is held; clicking Clear Current Webpage clears the store
handle, the chain handle and the current URL, leaving the model; the script
then reruns. -/
def uiClear (s : UiState) (clearClicked : Bool) : UiState :=
  if s.vectorstore.isSome ∧ clearClicked then
    ⟨none, none, "", s.current_model⟩
  else
    s

/-- A sample document used to instantiate the theorems on concrete runs. -/
def sampleDocs : List Doc := [⟨"hello world"⟩]

/-- A sample environment whose loader succeeds with one short document. -/
def sampleEnv : ConsoleEnv := ⟨.ok sampleDocs, .ok "an answer"⟩

/-- A sample environment whose loader and chain both raise. -/
def sampleErrEnv : ConsoleEnv := ⟨.error "boom", .error "boom"⟩

/-- A sample store handle. -/
def sampleStore : Store := ⟨collectionName "llama3", ["hello world"], "llama3"⟩

/-- A sample chain handle over `sampleStore`. -/
def sampleChain : Chain := ⟨sampleStore, 3, "llama3"⟩

/-- A console session holding a loaded page. -/
def sampleLoaded : ConsoleState :=
  ⟨some sampleStore, some sampleChain, [(collectionName "llama3", ["hello world"])], "llama3"⟩

/-- A UI session holding a loaded page. -/
def sampleLoadedUi : UiState :=
  ⟨some sampleStore, some sampleChain, "http://example.com", "llama3"⟩

theorem splitCharsGo_length (fuel : Nat) : ∀ l : List Char,
    l.length ≤ 800 * fuel + 1000 →
    (splitCharsGo fuel l).length =
      if l.length ≤ 1000 then 1 else (l.length - 200 + 799) / 800 := by
  induction fuel with
  | zero =>
    intro l h
    simp only [splitCharsGo, List.length_cons, List.length_nil]
    rw [if_pos (by omega)]
  | succ fuel ih =>
    intro l h
    simp only [splitCharsGo]
    by_cases hl : l.length ≤ 1000
    · rw [if_pos hl, if_pos hl]
      rfl
    · rw [if_neg hl, if_neg hl]
      simp only [List.length_cons]
      rw [ih (l.drop 800) (by simp only [List.length_drop]; omega)]
      simp only [List.length_drop]
      split <;> omega

theorem splitChars_length (l : List Char) :
    (splitChars l).length =
      if l.length ≤ 1000 then 1 else (l.length - 200 + 799) / 800 :=
  splitCharsGo_length l.length l (by omega)

/-- C2: chunking a single text of length L with chunk size 1000 and overlap
200 (length in characters) yields exactly ceil((L - 200) / 800) chunks when
L > 1000 — written with natural-number ceiling division
(L - 200 + 799) / 800 — and exactly one chunk when L ≤ 1000. -/
theorem C2_theorem (s : String) :
    (1000 < s.data.length →
      (split_documents [⟨s⟩]).length = (s.data.length - 200 + 799) / 800) ∧
    (s.data.length ≤ 1000 → (split_documents [⟨s⟩]).length = 1) := by
  have h : (split_documents [⟨s⟩]).length = (splitChars s.data).length := by
    simp [split_documents]
  rw [h, splitChars_length]
  constructor
  · intro hL
    rw [if_neg (by omega)]
  · intro hL
    rw [if_pos hL]

/-- C2 witness: a 1001-character text yields (1001 - 200 + 799) / 800 = 2
chunks, and a 3-character text yields one chunk. -/
theorem C2_witness :
    (1000 < (String.mk (List.replicate 1001 'a')).data.length ∧
      (split_documents [⟨⟨List.replicate 1001 'a'⟩⟩]).length =
        ((String.mk (List.replicate 1001 'a')).data.length - 200 + 799) / 800) ∧
    ("abc".data.length ≤ 1000 ∧ (split_documents [⟨"abc"⟩]).length = 1) :=
  ⟨⟨by decide, (C2_theorem ⟨List.replicate 1001 'a'⟩).1 (by decide)⟩,
   ⟨by decide, (C2_theorem ("abc" : String)).2 (by decide)⟩⟩

/-- C5: `load_webpage` is a total function of the library outcome: it returns
the loaded documents when the loader returns, the empty list when the loader
raises (so no exception reaches the caller), and the returned value does not
depend on which failure occurred. -/
theorem C5_theorem :
    (∀ (url : String) (docs : List Doc), (load_webpage url (.ok docs)).1 = docs) ∧
    (∀ (url e : String), (load_webpage url (.error e)).1 = []) ∧
    (∀ (url e1 e2 : String),
      (load_webpage url (.error e1)).1 = (load_webpage url (.error e2)).1) :=
  ⟨fun _ _ => rfl, fun _ _ => rfl, fun _ _ _ => rfl⟩

theorem deleteCollection_filter_self (name : String) (db : ChromaDB) :
    (deleteCollection name db).filter (fun kv => kv.1 = name) = [] := by
  induction db with
  | nil => rfl
  | cons kv rest ih =>
    by_cases h : kv.1 = name <;>
      simp [deleteCollection, List.filter_cons, h]

theorem deleteCollection_idem (name : String) (db : ChromaDB) :
    deleteCollection name (deleteCollection name db) = deleteCollection name db := by
  simp [deleteCollection, List.filter_filter]

theorem deleteCollection_cons_self (name : String) (v : List String)
    (db : ChromaDB) :
    deleteCollection name ((name, v) :: db) = deleteCollection name db := by
  simp [deleteCollection, List.filter_cons]

/-- C7: `create_vectorstore` names the collection "webpage_collection_" ++
model, the resulting database holds exactly one collection of that name
containing exactly the given chunks (the old same-named collection is deleted
before recreation), and running it twice with the same chunks and model on
any database produces the same store and the same database as running it
once. -/
theorem C7_theorem (splits : List String) (model : String) (db : ChromaDB) :
    (create_vectorstore splits model db).1.collection =
        "webpage_collection_" ++ model ∧
    ((create_vectorstore splits model db).2.filter
        (fun kv => kv.1 = collectionName model)) =
      [(collectionName model, splits)] ∧
    create_vectorstore splits model (create_vectorstore splits model db).2 =
      create_vectorstore splits model db := by
  refine ⟨rfl, ?_, ?_⟩
  · show ((collectionName model, splits) ::
        deleteCollection (collectionName model) db).filter
        (fun kv => kv.1 = collectionName model) = [(collectionName model, splits)]
    rw [List.filter_cons_of_pos (by simp),
      deleteCollection_filter_self (collectionName model) db]
  · have hdb : (create_vectorstore splits model
        (create_vectorstore splits model db).2).2 =
        (create_vectorstore splits model db).2 := by
      show (collectionName model, splits) ::
          deleteCollection (collectionName model)
            ((collectionName model, splits) ::
              deleteCollection (collectionName model) db) =
        (collectionName model, splits) ::
          deleteCollection (collectionName model) db
      rw [deleteCollection_cons_self, deleteCollection_idem]
    exact Prod.ext rfl hdb

/-- A loader outcome that returns the empty list without raising. -/
def emptyOkEnv : ConsoleEnv := ⟨.ok [], .ok "an answer"⟩

/-- C8: the console sentinels are matched after stripping surrounding
whitespace and lowercasing: any input whose stripped lowercase form is
"quit" exits from either state, and any input whose stripped lowercase form
is "new" triggers the new-page transition in the PageLoaded state. -/
theorem C8_theorem (s : ConsoleState) (inp : String) (env : ConsoleEnv) :
    (pyLower (pyStrip inp) = "quit" → (consoleStep s inp env).exit = true) ∧
    (s.vectorstore.isSome = true → pyLower (pyStrip inp) = "new" →
      (consoleStep s inp env).exit = false ∧
      (consoleStep s inp env).state.vectorstore = none) := by
  constructor
  · intro hq
    cases hvs : s.vectorstore with
    | none => simp [consoleStep, hvs, hq]
    | some v => simp [consoleStep, hvs, hq]
  · intro hsome hn
    have hq : pyLower (pyStrip inp) ≠ "quit" := by
      rw [hn]
      decide
    cases hvs : s.vectorstore with
    | none =>
      rw [hvs] at hsome
      simp at hsome
    | some v => simp [consoleStep, hvs, hq, hn]

/-- C8 witness: " QUIT " exits from the initial state, and " New " clears
the store handle in a loaded state. -/
theorem C8_witness :
    (pyLower (pyStrip " QUIT ") = "quit" ∧
      (consoleStep (consoleInit "llama3") " QUIT " sampleEnv).exit = true) ∧
    (sampleLoaded.vectorstore.isSome = true ∧ pyLower (pyStrip " New ") = "new" ∧
      ((consoleStep sampleLoaded " New " sampleEnv).exit = false ∧
        (consoleStep sampleLoaded " New " sampleEnv).state.vectorstore = none)) :=
  ⟨⟨by decide, (C8_theorem (consoleInit "llama3") " QUIT " sampleEnv).1 (by decide)⟩,
   ⟨by decide, by decide,
    (C8_theorem sampleLoaded " New " sampleEnv).2 (by decide) (by decide)⟩⟩

/-- C10 counterexample: the input " new " is not a quit sentinel, yet
`load_webpage` receives the stripped string "new", not the original input
" new " — so a non-quit input is not passed verbatim. -/
theorem C10_counterexample :
    pyLower (pyStrip " new ") ≠ "quit" ∧
    (consoleStep (consoleInit "llama3") " new " sampleEnv).loadedUrl = some "new" ∧
    some "new" ≠ some " new " := by
  decide

/-- C10 amended: in the NoPageLoaded state every input whose stripped
lowercase form is not "quit" — including the string "new" — is passed to
`load_webpage` as a URL after stripping surrounding whitespace (otherwise
unmodified, in particular not lowercased), rather than being interpreted as
a command. -/
theorem C10_theorem (s : ConsoleState) (inp : String) (env : ConsoleEnv)
    (hns : s.vectorstore = none) (hq : pyLower (pyStrip inp) ≠ "quit") :
    (consoleStep s inp env).loadedUrl = some (pyStrip inp) ∧
    (consoleStep s inp env).exit = false := by
  obtain ⟨lo, ao⟩ := env
  cases lo with
  | ok docs =>
    by_cases hd : docs = []
    · subst hd
      simp [consoleStep, hns, hq, load_webpage]
    · simp [consoleStep, hns, hq, load_webpage, hd]
  | error e => simp [consoleStep, hns, hq, load_webpage]

/-- C10 witness: the input "new" in the initial state goes to `load_webpage`
as the URL "new". -/
theorem C10_witness :
    (consoleInit "llama3").vectorstore = none ∧
    pyLower (pyStrip "new") ≠ "quit" ∧
    ((consoleStep (consoleInit "llama3") "new" sampleEnv).loadedUrl =
        some (pyStrip "new") ∧
      (consoleStep (consoleInit "llama3") "new" sampleEnv).exit = false) :=
  ⟨rfl, by decide,
   C10_theorem (consoleInit "llama3") "new" sampleEnv rfl (by decide)⟩

/-- C9: the Clear Current Webpage action never changes the selected model,
and when a page is loaded and the button is clicked it resets the store
handle, the chain handle and the current URL while keeping the model. -/
theorem C9_theorem (s : UiState) (clearClicked : Bool) :
    (uiClear s clearClicked).current_model = s.current_model ∧
    (s.vectorstore.isSome = true → clearClicked = true →
      uiClear s clearClicked = ⟨none, none, "", s.current_model⟩) := by
  constructor
  · unfold uiClear
    split <;> rfl
  · intro h1 h2
    simp [uiClear, h1, h2]

/-- C9 witness: clearing a loaded UI session keeps the model "llama3" and
resets the other three fields. -/
theorem C9_witness :
    (uiClear sampleLoadedUi true).current_model = sampleLoadedUi.current_model ∧
    (sampleLoadedUi.vectorstore.isSome = true ∧
      uiClear sampleLoadedUi true = ⟨none, none, "", sampleLoadedUi.current_model⟩) :=
  ⟨(C9_theorem sampleLoadedUi true).1,
   ⟨by decide, (C9_theorem sampleLoadedUi true).2 (by decide) rfl⟩⟩

/-- C4: whenever the selected model differs from the session model, the
model-change transition produces, in one step, the state with the store
handle, the chain handle and the current URL all cleared and the model set
to the new selection — no intermediate mixed state exists. -/
theorem C4_theorem (s : UiState) (db : ChromaDB) (m : String)
    (h : m ≠ s.current_model) :
    (uiModelChange s db m).1 = ⟨none, none, "", m⟩ := by
  simp [uiModelChange, h]

/-- C4 witness: selecting "mistral" over a loaded "llama3" session clears
everything and records "mistral". -/
theorem C4_witness :
    ("mistral" : String) ≠ sampleLoadedUi.current_model ∧
    (uiModelChange sampleLoadedUi [] "mistral").1 = ⟨none, none, "", "mistral"⟩ :=
  ⟨by decide, C4_theorem sampleLoadedUi [] "mistral" (by decide)⟩

/-- C1 counterexample: starting the console loop, loading a page
successfully and then issuing "new" reaches a session state whose store
handle is None while its pipeline handle is still set — the console "new"
command does not discard the pipeline handle with the store handle. -/
theorem C1_counterexample :
    (consoleRun (consoleInit "llama3")
      [("http://example.com", sampleEnv), ("new", sampleEnv)]).vectorstore = none ∧
    (consoleRun (consoleInit "llama3")
      [("http://example.com", sampleEnv), ("new", sampleEnv)]).rag_chain ≠ none := by
  decide

/-- C1 amended: every successful page load in either driver creates exactly
one store handle and one pipeline handle; the UI Clear action and the UI
model change discard both handles together; the console "new" command
discards only the store handle and leaves the stale pipeline handle in
place. -/
theorem C1_theorem :
    (∀ (s : ConsoleState) (inp : String) (env : ConsoleEnv),
      s.vectorstore = none → pyLower (pyStrip inp) ≠ "quit" →
      loadDocs env.loadOutcome ≠ [] →
      (consoleStep s inp env).storesCreated = 1 ∧
      (consoleStep s inp env).chainsCreated = 1 ∧
      (consoleStep s inp env).state.vectorstore.isSome = true ∧
      (consoleStep s inp env).state.rag_chain.isSome = true) ∧
    (∀ (s : UiState) (db : ChromaDB) (url m : String) (o : LoadOutcome),
      url ≠ "" → (url ≠ s.current_url ∨ m ≠ s.current_model) →
      loadDocs o ≠ [] →
      (uiLoad s db url m true o).storesCreated = 1 ∧
      (uiLoad s db url m true o).chainsCreated = 1 ∧
      (uiLoad s db url m true o).state.vectorstore.isSome = true ∧
      (uiLoad s db url m true o).state.rag_chain.isSome = true) ∧
    (∀ s : UiState, s.vectorstore.isSome = true →
      (uiClear s true).vectorstore = none ∧ (uiClear s true).rag_chain = none) ∧
    (∀ (s : UiState) (db : ChromaDB) (m : String), m ≠ s.current_model →
      (uiModelChange s db m).1.vectorstore = none ∧
      (uiModelChange s db m).1.rag_chain = none) ∧
    (∀ (s : ConsoleState) (inp : String) (env : ConsoleEnv),
      s.vectorstore.isSome = true → pyLower (pyStrip inp) = "new" →
      (consoleStep s inp env).state.vectorstore = none ∧
      (consoleStep s inp env).state.rag_chain = s.rag_chain) := by
  refine ⟨?_, ?_, ?_, ?_, ?_⟩
  · intro s inp env hns hq hd
    obtain ⟨lo, ao⟩ := env
    cases lo with
    | ok docs =>
      simp only [loadDocs] at hd
      simp [consoleStep, hns, hq, load_webpage, hd]
    | error e => simp [loadDocs] at hd
  · intro s db url m o hu hum hd
    cases o with
    | ok docs =>
      simp only [loadDocs] at hd
      simp [uiLoad, hu, hum, load_webpage, hd]
    | error e => simp [loadDocs] at hd
  · intro s hsome
    simp [uiClear, hsome]
  · intro s db m h
    simp [uiModelChange, h]
  · intro s inp env hsome hn
    have hq : pyLower (pyStrip inp) ≠ "quit" := by
      rw [hn]
      decide
    cases hvs : s.vectorstore with
    | none =>
      rw [hvs] at hsome
      simp at hsome
    | some v => simp [consoleStep, hvs, hq, hn]

/-- C1 amended witness: concrete instances of the five behaviors — a
successful console load, a successful UI load, a UI clear, a UI model
change, and a console "new" that keeps the stale chain handle. -/
theorem C1_witness :
    (loadDocs sampleEnv.loadOutcome ≠ [] ∧
      ((consoleStep (consoleInit "llama3") "http://example.com" sampleEnv).storesCreated = 1 ∧
        (consoleStep (consoleInit "llama3") "http://example.com" sampleEnv).chainsCreated = 1 ∧
        (consoleStep (consoleInit "llama3") "http://example.com" sampleEnv).state.vectorstore.isSome = true ∧
        (consoleStep (consoleInit "llama3") "http://example.com" sampleEnv).state.rag_chain.isSome = true)) ∧
    ((uiLoad uiInit [] "http://example.com" "llama3" true sampleEnv.loadOutcome).storesCreated = 1 ∧
      (uiLoad uiInit [] "http://example.com" "llama3" true sampleEnv.loadOutcome).chainsCreated = 1 ∧
      (uiLoad uiInit [] "http://example.com" "llama3" true sampleEnv.loadOutcome).state.vectorstore.isSome = true ∧
      (uiLoad uiInit [] "http://example.com" "llama3" true sampleEnv.loadOutcome).state.rag_chain.isSome = true) ∧
    ((uiClear sampleLoadedUi true).vectorstore = none ∧
      (uiClear sampleLoadedUi true).rag_chain = none) ∧
    ((uiModelChange sampleLoadedUi [] "mistral").1.vectorstore = none ∧
      (uiModelChange sampleLoadedUi [] "mistral").1.rag_chain = none) ∧
    ((consoleStep sampleLoaded "new" sampleEnv).state.vectorstore = none ∧
      (consoleStep sampleLoaded "new" sampleEnv).state.rag_chain = sampleLoaded.rag_chain) := by
  refine ⟨⟨by decide, ?_⟩, ?_, ?_, ?_, ?_⟩
  · exact C1_theorem.1 (consoleInit "llama3") "http://example.com" sampleEnv
      rfl (by decide) (by decide)
  · exact C1_theorem.2.1 uiInit [] "http://example.com" "llama3"
      sampleEnv.loadOutcome (by decide) (Or.inl (by decide)) (by decide)
  · exact C1_theorem.2.2.1 sampleLoadedUi (by decide)
  · exact C1_theorem.2.2.2.1 sampleLoadedUi [] "mistral" (by decide)
  · exact C1_theorem.2.2.2.2 sampleLoaded "new" sampleEnv (by decide) (by decide)

/-- C3 counterexample: when the loader returns the empty list without
raising, the console session state is unchanged (that part of the claim
holds) but the console surfaces no error message — the printed output is
only the page-content header, and no message starts with "Error" or
"Failed". -/
theorem C3_counterexample :
    loadDocs emptyOkEnv.loadOutcome = [] ∧
    (consoleStep (consoleInit "llama3") "http://example.com" emptyOkEnv).state =
      consoleInit "llama3" ∧
    (consoleStep (consoleInit "llama3") "http://example.com" emptyOkEnv).messages =
      ["Webpage content:"] ∧
    ((consoleStep (consoleInit "llama3") "http://example.com" emptyOkEnv).messages.any
      (fun msg => "Error".data.isPrefixOf msg.data || "Failed".data.isPrefixOf msg.data))
      = false := by
  decide

/-- C3 amended: an empty-result page load leaves the session in
NoPageLoaded in both drivers — state unchanged, no store handle and no
chain handle created; the UI always surfaces "Failed to load webpage",
while the console surfaces "Error loading webpage: ..." exactly when the
loader raised an exception. -/
theorem C3_theorem :
    (∀ (s : ConsoleState) (inp : String) (env : ConsoleEnv),
      s.vectorstore = none → pyLower (pyStrip inp) ≠ "quit" →
      loadDocs env.loadOutcome = [] →
      (consoleStep s inp env).state = s ∧
      (consoleStep s inp env).exit = false ∧
      (consoleStep s inp env).storesCreated = 0 ∧
      (consoleStep s inp env).chainsCreated = 0 ∧
      (∀ e, env.loadOutcome = .error e →
        ("Error loading webpage: " ++ e) ∈ (consoleStep s inp env).messages)) ∧
    (∀ (s : UiState) (db : ChromaDB) (url m : String) (o : LoadOutcome),
      loadDocs o = [] →
      (uiLoad s db url m true o).state = s ∧
      (uiLoad s db url m true o).db = db ∧
      (uiLoad s db url m true o).storesCreated = 0 ∧
      (uiLoad s db url m true o).chainsCreated = 0 ∧
      (url ≠ "" → (url ≠ s.current_url ∨ m ≠ s.current_model) →
        "Failed to load webpage" ∈ (uiLoad s db url m true o).messages)) := by
  constructor
  · intro s inp env hns hq hd
    obtain ⟨lo, ao⟩ := env
    cases lo with
    | ok docs =>
      simp only [loadDocs] at hd
      subst hd
      refine ⟨?_, ?_, ?_, ?_, ?_⟩ <;>
        simp [consoleStep, hns, hq, load_webpage]
    | error e =>
      refine ⟨?_, ?_, ?_, ?_, ?_⟩ <;>
        simp [consoleStep, hns, hq, load_webpage]
  · intro s db url m o hd
    by_cases hg : url ≠ "" ∧ (url ≠ s.current_url ∨ m ≠ s.current_model)
    · cases o with
      | ok docs =>
        simp only [loadDocs] at hd
        subst hd
        refine ⟨?_, ?_, ?_, ?_, fun _ _ => ?_⟩ <;>
          simp [uiLoad, hg.1, hg.2, load_webpage]
      | error e =>
        refine ⟨?_, ?_, ?_, ?_, fun _ _ => ?_⟩ <;>
          simp [uiLoad, hg.1, hg.2, load_webpage]
    · rw [not_and_or] at hg
      rcases hg with hg | hg
      · rw [not_not] at hg
        refine ⟨?_, ?_, ?_, ?_, fun hu _ => absurd hg hu⟩ <;>
          simp [uiLoad, hg]
      · refine ⟨?_, ?_, ?_, ?_, fun _ hum => absurd hum hg⟩ <;>
          simp [uiLoad, hg]

/-- C3 amended witness: a raising console load and a raising UI load both
keep the session unchanged and surface their error messages. -/
theorem C3_witness :
    (loadDocs sampleErrEnv.loadOutcome = [] ∧
      ((consoleStep (consoleInit "llama3") "http://example.com" sampleErrEnv).state =
          consoleInit "llama3" ∧
        (consoleStep (consoleInit "llama3") "http://example.com" sampleErrEnv).exit = false ∧
        (consoleStep (consoleInit "llama3") "http://example.com" sampleErrEnv).storesCreated = 0 ∧
        (consoleStep (consoleInit "llama3") "http://example.com" sampleErrEnv).chainsCreated = 0) ∧
      ("Error loading webpage: " ++ "boom") ∈
        (consoleStep (consoleInit "llama3") "http://example.com" sampleErrEnv).messages) ∧
    ((uiLoad uiInit [] "http://example.com" "llama3" true (.error "boom")).state = uiInit ∧
      (uiLoad uiInit [] "http://example.com" "llama3" true (.error "boom")).db = [] ∧
      (uiLoad uiInit [] "http://example.com" "llama3" true (.error "boom")).storesCreated = 0 ∧
      (uiLoad uiInit [] "http://example.com" "llama3" true (.error "boom")).chainsCreated = 0 ∧
      "Failed to load webpage" ∈
        (uiLoad uiInit [] "http://example.com" "llama3" true (.error "boom")).messages) := by
  have hc := C3_theorem.1 (consoleInit "llama3") "http://example.com" sampleErrEnv
    rfl (by decide) (by decide)
  have hu := C3_theorem.2 uiInit [] "http://example.com" "llama3" (.error "boom")
    (by decide)
  exact ⟨⟨by decide, ⟨hc.1, hc.2.1, hc.2.2.1, hc.2.2.2.1⟩,
    hc.2.2.2.2 "boom" rfl⟩,
   hu.1, hu.2.1, hu.2.2.1, hu.2.2.2.1,
    hu.2.2.2.2 (by decide) (Or.inl (by decide))⟩

/-- C6: a failing answer-pipeline invocation in the PageLoaded state is
caught in both drivers: the error is displayed, the step does not exit, and
the whole session state is exactly what it was before the question. -/
theorem C6_theorem :
    (∀ (s : ConsoleState) (inp : String) (env : ConsoleEnv) (e : String),
      s.vectorstore.isSome = true → pyLower (pyStrip inp) ≠ "quit" →
      pyLower (pyStrip inp) ≠ "new" → env.answerOutcome = .error e →
      (consoleStep s inp env).state = s ∧
      (consoleStep s inp env).exit = false ∧
      (consoleStep s inp env).messages = ["Error generating answer: " ++ e]) ∧
    (∀ (s : UiState) (q e : String),
      s.vectorstore.isSome = true → q ≠ "" →
      (uiAnswer s q true (.error e)).1 = s ∧
      (uiAnswer s q true (.error e)).2 = ["Error generating answer: " ++ e]) := by
  constructor
  · intro s inp env e hsome hq hn hao
    cases hvs : s.vectorstore with
    | none =>
      rw [hvs] at hsome
      simp at hsome
    | some v => simp [consoleStep, hvs, hq, hn, hao]
  · intro s q e hsome hq
    simp [uiAnswer, hsome, hq]

/-- C6 witness: a raising invocation on a concrete loaded session, console
and UI, leaves the state intact and shows the error. -/
theorem C6_witness :
    (sampleLoaded.vectorstore.isSome = true ∧
      ((consoleStep sampleLoaded "what is this" sampleErrEnv).state = sampleLoaded ∧
        (consoleStep sampleLoaded "what is this" sampleErrEnv).exit = false ∧
        (consoleStep sampleLoaded "what is this" sampleErrEnv).messages =
          ["Error generating answer: " ++ "boom"])) ∧
    (sampleLoadedUi.vectorstore.isSome = true ∧
      ((uiAnswer sampleLoadedUi "what is this" true (.error "boom")).1 = sampleLoadedUi ∧
        (uiAnswer sampleLoadedUi "what is this" true (.error "boom")).2 =
          ["Error generating answer: " ++ "boom"])) :=
  ⟨⟨by decide, C6_theorem.1 sampleLoaded "what is this" sampleErrEnv "boom"
      (by decide) (by decide) (by decide) rfl⟩,
   ⟨by decide, C6_theorem.2 sampleLoadedUi "what is this" "boom"
      (by decide) (by decide)⟩⟩
